import Mathlib

/-!
Verification of the asynchronous job-orchestration engine of this
repository (a Telegram bot driving the Runway video-generation API,
`main.py`) against its natural-language specification.

The embedding below is a shallow translation of `main.py`:
JSON payloads become the inductive `JValue`, Python truthiness becomes
`JValue.truthy`, `dict.get` becomes `JValue.get` (returning `jnull` for a
missing key, as Python returns `None`), and the handlers' network effects
(HTTP calls, Telegram sends) are supplied by explicit oracle records so
that the pure control flow of the source is preserved exactly.
-/

set_option maxHeartbeats 1000000

namespace RunwayBot

/-- JSON values as delivered by the provider and consumed by `main.py`. -/
inductive JValue where
  | jnull : JValue
  | jbool : Bool → JValue
  | jnum : Int → JValue
  | jstr : String → JValue
  | jarr : List JValue → JValue
  | jobj : List (String × JValue) → JValue

/-- Python truthiness of a JSON value (`None`, `False`, `0`, `""`, `[]`,
`{}` are falsy, everything else truthy). -/
def JValue.truthy : JValue → Bool
  | .jnull => false
  | .jbool b => b
  | .jnum n => n != 0
  | .jstr s => s != ""
  | .jarr xs => !xs.isEmpty
  | .jobj fs => !fs.isEmpty

/-- Python `d.get(key)`: the stored value, or `None` (here `jnull`) when the
key is missing.  The program only calls `.get` on dict-shaped payloads. -/
def JValue.get (j : JValue) (key : String) : JValue :=
  match j with
  | .jobj fs => (fs.lookup key).getD .jnull
  | _ => .jnull

/-- Python `a or b` on JSON values: `a` when truthy, else `b`. -/
def pyOr (a b : JValue) : JValue := if a.truthy then a else b

/-- Key probe order of the first loop of `extract_task_id` (main.py line 50). -/
def TASK_ID_KEYS : List String := ["id", "taskId", "task_id", "task"]

/-- First loop of `extract_task_id` (main.py lines 50-55): for each key, a
string value is returned directly; a dict value with a truthy `id` yields
that `id`; anything else moves on to the next key. -/
def extract_task_id_main (resp_json : JValue) : List String → Option JValue
  | [] => none
  | key :: rest =>
    match resp_json.get key with
    | .jstr s => some (.jstr s)
    | .jobj fs =>
      if ((JValue.jobj fs).get "id").truthy then some ((JValue.jobj fs).get "id")
      else extract_task_id_main resp_json rest
    | _ => extract_task_id_main resp_json rest

/-- Second loop of `extract_task_id` (main.py lines 57-60): probe the `data`
wrapper for a truthy id-like key. -/
def extract_task_id_data (data : JValue) : List String → Option JValue
  | [] => none
  | k :: rest =>
    if (data.get k).truthy then some (data.get k) else extract_task_id_data data rest

/-- Function `extract_task_id` (main.py lines 48-61). -/
def extract_task_id (resp_json : JValue) : Option JValue :=
  match extract_task_id_main resp_json TASK_ID_KEYS with
  | some v => some v
  | none =>
    match resp_json.get "data" with
    | .jobj fs => extract_task_id_data (.jobj fs) ["id", "taskId", "task_id"]
    | _ => none

/-- Key probe order of the dict branch of `extract_output_url`
(main.py line 74): `("url", "uri", "output", "video")`. -/
def OUTPUT_KEYS : List String := ["url", "uri", "output", "video"]

/-- The `for k in (...): if k in first: return first[k]` probe of
`extract_output_url` (main.py lines 74-76): the value under the first key
present in the dict, whatever that value is. -/
def firstKeyHit (fs : List (String × JValue)) : List String → Option JValue
  | [] => none
  | k :: rest =>
    match fs.lookup k with
    | some v => some v
    | none => firstKeyHit fs rest

/-- Function `extract_output_url` (main.py lines 63-78): a falsy `output` field gives
`None`; a non-empty list whose head is a string gives that string; a dict
head is probed with `OUTPUT_KEYS`; everything else falls through to `None`. -/
def extract_output_url (task_json : JValue) : Option JValue :=
  let out := task_json.get "output"
  if !out.truthy then none
  else
    match out with
    | .jarr (first :: _) =>
      (match first with
       | .jstr s => some (.jstr s)
       | .jobj fs => firstKeyHit fs OUTPUT_KEYS
       | _ => none)
    | _ => none

/-- One scripted answer to a `GET /v1/tasks/{id}` status request:
either a non-2xx response (or a transport error raised by the HTTP client),
on which `resp.raise_for_status()` raises, or a 2xx response with a JSON
body. -/
inductive PollResponse where
  | httpError : Nat → PollResponse
  | ok : JValue → PollResponse

/-- Outcome of `poll_task`: the raised `TimeoutError`, the returned JSON
(terminal success or provider-reported failure — the caller re-inspects it),
or the exception propagated from `raise_for_status`. -/
inductive PollResult where
  | timeout : PollResult
  | finished : JValue → PollResult
  | httpError : Nat → PollResult

/-- The success statuses of main.py line 117 (`("SUCCEEDED", "SUCCESS", "COMPLETED")`). -/
def SUCCESS_STATUSES : List String := ["SUCCEEDED", "SUCCESS", "COMPLETED"]

/-- The failure statuses of main.py line 119 (`("FAILED", "ERROR")`). -/
def FAILURE_STATUSES : List String := ["FAILED", "ERROR"]

/-- Line 115: `status = j.get("status") or j.get("state")`. -/
def effStatus (j : JValue) : JValue := pyOr (j.get "status") (j.get "state")

/-- ASCII uppercase of one character. -/
def asciiUpperChar (c : Char) : Char :=
  if 'a' ≤ c ∧ c ≤ 'z' then Char.ofNat (c.toNat - 32) else c

/-- Python `str.upper()`.  The status strings this program compares are
ASCII, on which Python's Unicode `upper` coincides with ASCII uppercase. -/
def pyUpper (s : String) : String := String.mk (s.data.map asciiUpperChar)

/-- Line 117: `isinstance(status, str) and status.upper() in ("SUCCEEDED", "SUCCESS", "COMPLETED")`. -/
def isSuccessStatus : JValue → Bool
  | .jstr s => decide (pyUpper s ∈ SUCCESS_STATUSES)
  | _ => false

/-- Line 119: `isinstance(status, str) and status.upper() in ("FAILED", "ERROR")`. -/
def isFailureStatus : JValue → Bool
  | .jstr s => decide (pyUpper s ∈ FAILURE_STATUSES)
  | _ => false

/-- A polled body on which the loop takes neither terminal branch and keeps
waiting. -/
def stillRunning (j : JValue) : Bool :=
  !isSuccessStatus (effStatus j) && !isFailureStatus (effStatus j)

/-- The `while waited < max_wait` loop of `poll_task` (main.py lines
108-122), with the scripted response stream indexed by request number `k`.
Besides the result, the number of status requests issued so far is
returned.  Time is counted in seconds; the source accumulates
`waited += interval` as a float, but both call sites use the whole-second
defaults `max_wait=300`, `interval=3.0`, for which the arithmetic is exact. -/
def poll_go (responses : Nat → PollResponse) (max_wait interval : Nat)
    (hi : 0 < interval) (k waited : Nat) : PollResult × Nat :=
  if _h : waited < max_wait then
    match responses k with
    | .httpError c => (.httpError c, k + 1)
    | .ok j =>
      if isSuccessStatus (effStatus j) then (.finished j, k + 1)
      else if isFailureStatus (effStatus j) then (.finished j, k + 1)
      else poll_go responses max_wait interval hi (k + 1) (waited + interval)
  else (.timeout, k)
termination_by max_wait - waited
decreasing_by omega

/-- Function `poll_task` (main.py lines 101-123): run the polling loop from
`waited = 0`.  The `interval > 0` argument reflects that the source would
loop forever on a zero interval; every call site uses `interval = 3.0`. -/
def poll_task (responses : Nat → PollResponse) (max_wait interval : Nat)
    (hi : 0 < interval) : PollResult × Nat :=
  poll_go responses max_wait interval hi 0 0

/-- The per-conversation `context.user_data` dict as this program uses it:
the four slots `MODE_KEY`, `DURATION_KEY`, `RATIO_KEY` (field `aspect`
here) and `PROMPT_KEY`; `none` models an absent key. -/
structure UserData where
  mode : Option String
  duration : Option Nat
  aspect : Option String
  prompt : Option String
deriving Repr, DecidableEq

/-- Cleared state: `context.user_data.clear()` leaves the dict with no keys. -/
def UserData.empty : UserData := ⟨none, none, none, none⟩

/-- Python truthiness of `user_data.get(k)` for a string-valued slot. -/
def optStrTruthy : Option String → Bool
  | none => false
  | some s => s != ""

/-- Python truthiness of `user_data.get(k)` for an integer-valued slot. -/
def optNatTruthy : Option Nat → Bool
  | none => false
  | some n => n != 0

/-- Python truthiness of an `Optional` JSON value. -/
def optTruthy : Option JValue → Bool
  | none => false
  | some v => v.truthy

/-- Python `a or b` where `a` is an optional string and `b` a string. -/
def pyStrOr (a : Option String) (b : String) : String :=
  match a with
  | some s => if s != "" then s else b
  | none => b

/-- ASCII whitespace, the class `str.strip()` removes on the prompts this
program sees. -/
def isSpaceChar (c : Char) : Bool := c == ' ' || c == '\t' || c == '\n' || c == '\r'

/-- Python `str.strip()`: drop leading and trailing whitespace. -/
def pyStrip (s : String) : String :=
  String.mk (((s.data.dropWhile isSpaceChar).reverse.dropWhile isSpaceChar).reverse)

/-- The notification channel and the fetch used by the fallback, as oracles:
`bot.send_video(..., video=url)`, `client.get(video_url)` followed by
`raise_for_status()` yielding `.content`, and
`bot.send_video(..., video=InputFile(...))`. -/
structure Channel where
  sendVideoUrl : Except String Unit
  fetchBytes : Except String (List Nat)
  sendVideoBytes : Except String Unit

/-- Which delivery path handed the video to the user. -/
inductive DeliveryPath where
  | byUrl : DeliveryPath
  | byBytes : DeliveryPath
deriving Repr, DecidableEq

/-- The delivery block of `handle_text` (main.py lines 209-217) and
`handle_photo` (lines 270-275): try to send by URL; on any exception,
download the bytes (raising on a non-2xx fetch) and send them as an
attached file.  The second component counts successful `send_video`
deliveries. -/
def deliver (ch : Channel) : Except String DeliveryPath × Nat :=
  match ch.sendVideoUrl with
  | .ok _ => (.ok .byUrl, 1)
  | .error _ =>
    match ch.fetchBytes with
    | .error e => (.error e, 0)
    | .ok _ =>
      match ch.sendVideoBytes with
      | .ok _ => (.ok .byBytes, 1)
      | .error e => (.error e, 0)

/-- The external world one generation flow touches: the
`start_generation` POST (its JSON, or the exception it raised), the
scripted status responses consumed by `poll_task`, and the notification
channel. -/
structure JobEnv where
  start_resp : Except String JValue
  pollResponses : Nat → PollResponse
  chan : Channel

/-- Which exit a handler took when it did not deliver. -/
inductive Stage where
  | submitFailed : Stage
  | noTaskId : Stage
  | pollHttpFailed : Stage
  | pollTimedOut : Stage
  | statusNotString : Stage
  | statusNotSucceeded : Stage
  | noOutputUrl : Stage
  | deliveryFailed : Stage
deriving Repr, DecidableEq

/-- User-visible outcome of one handler invocation: an early guidance
reply (plain `send_message`), an error report (`send_error_chat`, whether
reached by `return` or through the surrounding `except`), or a delivered
video. -/
inductive Outcome where
  | guidance : String → Outcome
  | errorReported : Stage → Outcome
  | delivered : DeliveryPath → Outcome
deriving Repr, DecidableEq

/-- What a handler left behind: the per-conversation state after it
returned, the user-visible outcome, and how many times the video was
delivered. -/
structure HandlerResult where
  state : UserData
  outcome : Outcome
  deliveries : Nat
deriving Repr, DecidableEq

/-- Lines 197 and 259: `status = (task_json.get("status") or "").upper()`;
`none` models the `AttributeError` Python raises when the stored value is
a truthy non-string (caught by the surrounding `except`). -/
def handlerStatus (task_json : JValue) : Option String :=
  match pyOr (task_json.get "status") (.jstr "") with
  | .jstr s => some (pyUpper s)
  | _ => none

/-- Lines 197-217 / 259-275: re-read `status` from the polled body, check
it against the success tuple, extract the output URL, deliver, and clear
the state only after a successful delivery. -/
def afterStatus (stOnError : UserData) (ch : Channel) (task_json : JValue) : HandlerResult :=
  match handlerStatus task_json with
  | none => ⟨stOnError, .errorReported .statusNotString, 0⟩
  | some status =>
    if !SUCCESS_STATUSES.contains status then
      ⟨stOnError, .errorReported .statusNotSucceeded, 0⟩
    else if !optTruthy (extract_output_url task_json) then
      ⟨stOnError, .errorReported .noOutputUrl, 0⟩
    else
      match deliver ch with
      | (.ok p, n) => ⟨UserData.empty, .delivered p, n⟩
      | (.error _, n) => ⟨stOnError, .errorReported .deliveryFailed, n⟩

/-- How a handler consumes the result of `poll_task`: the `TimeoutError`
and HTTP exceptions land in the surrounding `except`, a returned body goes
on to the status re-check. -/
def afterPoll (stOnError : UserData) (ch : Channel) : PollResult → HandlerResult
  | .httpError _ => ⟨stOnError, .errorReported .pollHttpFailed, 0⟩
  | .timeout => ⟨stOnError, .errorReported .pollTimedOut, 0⟩
  | .finished task_json => afterStatus stOnError ch task_json

/-- The generation pipeline shared verbatim by the `try` blocks of
`handle_text` (main.py lines 181-225) and `handle_photo` (lines 243-281):
submit, extract the task id, poll, then `afterPoll`.  `stOnError` is the
conversation state as it stands when the `try` block is entered; every
non-delivering exit leaves it untouched. -/
def runJob (stOnError : UserData) (env : JobEnv) : HandlerResult :=
  match env.start_resp with
  | .error _ => ⟨stOnError, .errorReported .submitFailed, 0⟩
  | .ok start_resp =>
    if !optTruthy (extract_task_id start_resp) then
      ⟨stOnError, .errorReported .noTaskId, 0⟩
    else
      afterPoll stOnError env.chan (poll_task env.pollResponses 300 3 (by decide)).1

/-- Handler `handle_text` (main.py lines 168-225): reject when `mode`, `duration`
and `ratio` are not all set; otherwise store the stripped prompt in the
session state and run the text-to-video pipeline. -/
def handle_text (st : UserData) (text : Option String) (env : JobEnv) : HandlerResult :=
  if !(optStrTruthy st.mode && optNatTruthy st.duration && optStrTruthy st.aspect) then
    ⟨st, .guidance "Сначала выбери параметры через /start", 0⟩
  else
    runJob { st with prompt := some (pyStrip (pyStrOr text "")) } env

/-- Handler `handle_photo` (main.py lines 227-281): reject when the selected mode
is not `"image"`, then when no prompt is available from the session state
or the caption; otherwise run the image-to-video pipeline.  The photo
download itself (lines 237-240, outside the `try`) is modelled as
succeeding; its bytes do not influence any control flow below. -/
def handle_photo (st : UserData) (caption : Option String) (env : JobEnv) : HandlerResult :=
  if st.mode != some "image" then
    ⟨st, .guidance "Фото не нужно для этого режима. Используй /start.", 0⟩
  else if pyStrOr st.prompt (pyStrip (pyStrOr caption "")) == "" then
    ⟨st, .guidance "Сначала отправь текстовый промпт.", 0⟩
  else
    runJob st env

/-! ## Concrete fixtures used by counterexamples and witnesses -/

/-- A scripted status-request stream whose very first request comes back
as an HTTP 500, followed by healthy still-running responses. -/
def c4_responses : Nat → PollResponse
  | 0 => .httpError 500
  | _ + 1 => .ok (JValue.jobj [("status", .jstr "RUNNING")])

/-- A terminal provider body: succeeded, with a flat string output array. -/
def okJson : JValue :=
  .jobj [("status", .jstr "SUCCEEDED"), ("output", .jarr [.jstr "https://x/1.mp4"])]

/-- A provider body reporting failure under the `status` key. -/
def failJson : JValue := .jobj [("status", .jstr "FAILED")]

/-- A terminal provider body that carries its status only under `state`. -/
def stateOnlyJson : JValue :=
  .jobj [("state", .jstr "SUCCEEDED"), ("output", .jarr [.jstr "https://x/1.mp4"])]

/-- A notification channel on which every call succeeds. -/
def okChan : Channel := ⟨.ok (), .ok [1, 2, 3], .ok ()⟩

/-- A status stream that reports success on every request. -/
def okPoll : Nat → PollResponse := fun _ => .ok okJson

/-- A status stream that reports provider failure on every request. -/
def failPoll : Nat → PollResponse := fun _ => .ok failJson

/-- An environment in which submission, polling, and delivery all go well. -/
def okEnv : JobEnv := ⟨.ok (.jobj [("id", .jstr "task-1")]), okPoll, okChan⟩

/-- An environment in which the provider reports the job as failed. -/
def failEnv : JobEnv := ⟨.ok (.jobj [("id", .jstr "task-1")]), failPoll, okChan⟩

/-- An environment in which the provider reports success only via `state`. -/
def stateOnlyEnv : JobEnv :=
  ⟨.ok (.jobj [("id", .jstr "task-1")]), fun _ => .ok stateOnlyJson, okChan⟩

/-- A session state with mode, duration and ratio collected and no prompt
stored yet. -/
def demoParams : UserData := ⟨some "text", some 5, some "1280:720", none⟩

/-! ## Poller lemmas -/

lemma stillRunning_split {j : JValue} (hc : stillRunning j = true) :
    isSuccessStatus (effStatus j) = false ∧ isFailureStatus (effStatus j) = false := by
  simp only [stillRunning, Bool.and_eq_true, Bool.not_eq_true'] at hc
  exact hc

lemma poll_go_done (responses : Nat → PollResponse) (mw i : Nat) (hi : 0 < i)
    (k w : Nat) (hw : ¬ w < mw) :
    poll_go responses mw i hi k w = (.timeout, k) := by
  rw [poll_go.eq_def]
  simp [hw]

lemma poll_go_http (responses : Nat → PollResponse) (mw i : Nat) (hi : 0 < i)
    (k w c : Nat) (hw : w < mw) (hr : responses k = .httpError c) :
    poll_go responses mw i hi k w = (.httpError c, k + 1) := by
  rw [poll_go.eq_def]
  simp [hw, hr]

lemma poll_go_success (responses : Nat → PollResponse) (mw i : Nat) (hi : 0 < i)
    (k w : Nat) (j : JValue) (hw : w < mw) (hr : responses k = .ok j)
    (hs : isSuccessStatus (effStatus j) = true) :
    poll_go responses mw i hi k w = (.finished j, k + 1) := by
  rw [poll_go.eq_def]
  simp [hw, hr, hs]

lemma poll_go_failure (responses : Nat → PollResponse) (mw i : Nat) (hi : 0 < i)
    (k w : Nat) (j : JValue) (hw : w < mw) (hr : responses k = .ok j)
    (hs : isSuccessStatus (effStatus j) = false)
    (hf : isFailureStatus (effStatus j) = true) :
    poll_go responses mw i hi k w = (.finished j, k + 1) := by
  rw [poll_go.eq_def]
  simp [hw, hr, hs, hf]

lemma poll_go_step_continue (responses : Nat → PollResponse) (mw i : Nat) (hi : 0 < i)
    (k w : Nat) (j : JValue) (hw : w < mw) (hr : responses k = .ok j)
    (hc : stillRunning j = true) :
    poll_go responses mw i hi k w = poll_go responses mw i hi (k + 1) (w + i) := by
  obtain ⟨hs, hf⟩ := stillRunning_split hc
  rw [poll_go.eq_def]
  simp [hw, hr, hs, hf]

/-- Running the loop across a block of `k` still-running responses moves the
request counter and the waited clock forward by `k` steps. -/
lemma poll_go_shift (responses : Nat → PollResponse) (mw i : Nat) (hi : 0 < i)
    (k : Nat) :
    ∀ (a w : Nat), w + k * i < mw →
      (∀ m, m < k → ∃ jm, responses (a + m) = .ok jm ∧ stillRunning jm = true) →
      poll_go responses mw i hi a w = poll_go responses mw i hi (a + k) (w + k * i) := by
  induction k with
  | zero => intro a w _ _; simp
  | succ n ih =>
    intro a w hw hpre
    obtain ⟨j0, hj0, hc0⟩ := hpre 0 (Nat.succ_pos n)
    have hw0 : w < mw := lt_of_le_of_lt (Nat.le_add_right w ((n + 1) * i)) hw
    have harith : w + i + n * i = w + (n + 1) * i := by ring
    rw [poll_go_step_continue responses mw i hi a w j0 hw0 (by simpa using hj0) hc0]
    rw [ih (a + 1) (w + i) (by rw [harith]; exact hw) ?_]
    · rw [show a + 1 + n = a + (n + 1) from by omega, harith]
    · intro m hm
      have := hpre (m + 1) (by omega)
      rw [show a + 1 + m = a + (m + 1) from by omega]
      exact this

/-- If every response the loop can reach before the deadline is a 2xx body
that is neither a success nor a failure status, the loop runs the clock out
and raises `TimeoutError`. -/
lemma poll_go_timeout_of_running (responses : Nat → PollResponse) (mw i : Nat) (hi : 0 < i) :
    ∀ (fuel a w : Nat), mw - w ≤ fuel →
      (∀ m, w + m * i < mw → ∃ jm, responses (a + m) = .ok jm ∧ stillRunning jm = true) →
      (poll_go responses mw i hi a w).1 = PollResult.timeout := by
  intro fuel
  induction fuel with
  | zero =>
    intro a w hf _
    rw [poll_go_done responses mw i hi a w (by omega)]
  | succ n ih =>
    intro a w hf hrun
    by_cases hw : w < mw
    · obtain ⟨j0, hj0, hc0⟩ := hrun 0 (by simpa using hw)
      rw [poll_go_step_continue responses mw i hi a w j0 hw (by simpa using hj0) hc0]
      apply ih (a + 1) (w + i) (by omega)
      intro m hm
      have hm' : w + (m + 1) * i < mw := by
        have h2 : (m + 1) * i = m * i + i := Nat.succ_mul m i
        calc w + (m + 1) * i = w + i + m * i := by rw [h2]; ring
        _ < mw := hm
      have := hrun (m + 1) hm'
      rw [show a + 1 + m = a + (m + 1) from by omega]
      exact this
    · rw [poll_go_done responses mw i hi a w hw]

/-! ## Claims C4-C7: the poller -/

/-- Claim C4 is false on the code: with the first status request failing
(HTTP 500) and every later response available and healthy, `poll_task`
stops after exactly one request and propagates the `raise_for_status`
exception — the loop does not continue to the overall timeout. -/
theorem C4_counterexample :
    poll_task c4_responses 300 3 (by decide) = (PollResult.httpError 500, 1) := by
  unfold poll_task
  exact poll_go_http c4_responses 300 3 (by decide) 0 0 500 (by decide) rfl

/-- Claim C4 amended: an individual status request that fails with a
non-2xx response (or a raised transport error) aborts the polling loop
immediately — `resp.raise_for_status()` raises, the exception propagates
out of `poll_task`, and no further status request is issued. -/
theorem C4_poll_error_aborts (responses : Nat → PollResponse) (mw i : Nat) (hi : 0 < i)
    (k c : Nat) (hk : k * i < mw)
    (hpre : ∀ m, m < k → ∃ jm, responses m = .ok jm ∧ stillRunning jm = true)
    (hck : responses k = .httpError c) :
    poll_task responses mw i hi = (PollResult.httpError c, k + 1) := by
  unfold poll_task
  rw [poll_go_shift responses mw i hi k 0 0 (by simpa using hk) (by simpa using hpre)]
  rw [poll_go_http responses mw i hi (0 + k) (0 + k * i) c (by simpa using hk)
    (by simpa using hck)]
  simp

/-- Witness for C4 amended: a stream whose second request (index 1) fails
with HTTP 503 after one running response; the loop stops after request 2. -/
theorem C4_witness :
    poll_task (fun k => if k = 0 then .ok (JValue.jobj [("status", .jstr "RUNNING")])
      else .httpError 503) 300 3 (by decide) = (PollResult.httpError 503, 2) :=
  C4_poll_error_aborts _ 300 3 (by decide) 1 503 (by decide)
    (fun m hm => ⟨JValue.jobj [("status", .jstr "RUNNING")],
      by rw [if_pos (by omega)], by decide⟩)
    rfl

/-- Claim C5: when every poll succeeds but no status is terminal, the
poller exhausts the deadline and raises `TimeoutError` — an outcome that
is a different constructor from the returned-JSON outcome that carries a
provider-reported failure. -/
theorem C5_poll_timeout (responses : Nat → PollResponse) (mw i : Nat) (hi : 0 < i)
    (hrun : ∀ m, m * i < mw → ∃ jm, responses m = .ok jm ∧ stillRunning jm = true) :
    (poll_task responses mw i hi).1 = PollResult.timeout ∧
      ∀ j, PollResult.timeout ≠ PollResult.finished j := by
  refine ⟨?_, fun j h => by cases h⟩
  unfold poll_task
  exact poll_go_timeout_of_running responses mw i hi mw 0 0 (by omega)
    (by simpa using hrun)

/-- Witness for C5: one hundred `RUNNING` responses (every request the
300-second deadline admits at a 3-second interval) end in a timeout. -/
theorem C5_witness :
    (poll_task (fun _ => .ok (JValue.jobj [("status", .jstr "RUNNING")])) 300 3
      (by decide)).1 = PollResult.timeout :=
  (C5_poll_timeout _ 300 3 (by decide)
    (fun m _ => ⟨JValue.jobj [("status", .jstr "RUNNING")], rfl, by decide⟩)).1

/-- Claim C6: the poller returns the first polled body whose
(case-insensitively compared) status is in `{SUCCEEDED, SUCCESS,
COMPLETED}`, and the total number of status requests it issues is exactly
the index of that response plus one — no request follows it. -/
theorem C6_poll_success_stops (responses : Nat → PollResponse) (mw i : Nat) (hi : 0 < i)
    (k : Nat) (j : JValue) (hk : k * i < mw)
    (hpre : ∀ m, m < k → ∃ jm, responses m = .ok jm ∧ stillRunning jm = true)
    (hj : responses k = .ok j) (hs : isSuccessStatus (effStatus j) = true) :
    poll_task responses mw i hi = (PollResult.finished j, k + 1) := by
  unfold poll_task
  rw [poll_go_shift responses mw i hi k 0 0 (by simpa using hk) (by simpa using hpre)]
  rw [poll_go_success responses mw i hi (0 + k) (0 + k * i) j (by simpa using hk)
    (by simpa using hj) hs]
  simp

/-- Witness for C6: two running responses, then a mixed-case `Succeeded`;
the poller returns that third body and issues exactly three requests. -/
theorem C6_witness :
    poll_task (fun k => if k < 2 then .ok (JValue.jobj [("status", .jstr "RUNNING")])
      else .ok (JValue.jobj [("status", .jstr "Succeeded")])) 300 3 (by decide) =
      (PollResult.finished (JValue.jobj [("status", .jstr "Succeeded")]), 3) :=
  C6_poll_success_stops _ 300 3 (by decide) 2 _ (by decide)
    (fun m hm => ⟨JValue.jobj [("status", .jstr "RUNNING")],
      by rw [if_pos hm], by decide⟩)
    (by rw [if_neg (by omega)])
    (by decide)

/-- Claim C7: a status string outside both terminal vocabularies (compared
case-insensitively) is treated as still running — the poller never calls
it a success and never stops the loop on it, so a stream of such statuses
runs to the timeout. -/
theorem C7_unknown_status_still_running (responses : Nat → PollResponse) (mw i : Nat)
    (hi : 0 < i)
    (hrun : ∀ m, m * i < mw → ∃ jm sm, responses m = .ok jm ∧
      effStatus jm = .jstr sm ∧ pyUpper sm ∉ SUCCESS_STATUSES ∧
      pyUpper sm ∉ FAILURE_STATUSES) :
    (poll_task responses mw i hi).1 = PollResult.timeout ∧
      ∀ j, (poll_task responses mw i hi).1 ≠ PollResult.finished j := by
  have hto : (poll_task responses mw i hi).1 = PollResult.timeout := by
    unfold poll_task
    apply poll_go_timeout_of_running responses mw i hi mw 0 0 (by omega)
    intro m hm
    obtain ⟨jm, sm, hj, hst, hns, hnf⟩ := hrun m (by simpa using hm)
    refine ⟨jm, by simpa using hj, ?_⟩
    simp only [stillRunning, isSuccessStatus, isFailureStatus, hst,
      Bool.and_eq_true, Bool.not_eq_true', decide_eq_false_iff_not]
    exact ⟨hns, hnf⟩
  exact ⟨hto, fun j h => by rw [hto] at h; cases h⟩

/-- Witness for C7: a stream of terminal-looking `CANCELLED` statuses (in
neither recognized set) is never classified as success and times out. -/
theorem C7_witness :
    (poll_task (fun _ => .ok (JValue.jobj [("status", .jstr "Cancelled")])) 300 3
      (by decide)).1 = PollResult.timeout :=
  (C7_unknown_status_still_running _ 300 3 (by decide)
    (fun m _ => ⟨JValue.jobj [("status", .jstr "Cancelled")], "Cancelled", rfl,
      rfl, by decide, by decide⟩)).1

/-! ## Claims C2-C3: the result normalizer -/

/-- Claim C2 is false on the code: for the payload
`{"data": {"output": ["https://x/3.mp4"]}}` the normalizer returns `None`
— nothing in `extract_output_url` looks under a `data` wrapper. -/
theorem C2_counterexample :
    extract_output_url (JValue.jobj [("data", JValue.jobj
      [("output", JValue.jarr [JValue.jstr "https://x/3.mp4"])])]) = none := rfl

/-- Claim C2 amended: the extraction rules are applied only at the top
level and are not repeated under a `data` wrapper — any payload whose
top-level `output` lookup yields nothing gives `None`, no matter what sits
under `data`. -/
theorem C2_no_data_wrapper (j : JValue) (h : j.get "output" = JValue.jnull) :
    extract_output_url j = none := by
  simp [extract_output_url, h, JValue.truthy]

/-- Witness for C2 amended, at another data-wrapped payload. -/
theorem C2_witness :
    extract_output_url (JValue.jobj [("data", JValue.jobj
      [("output", JValue.jarr [JValue.jstr "https://x/9.mp4"])])]) = none :=
  C2_no_data_wrapper _ rfl

/-- Claim C3 is false on the code: a first array element
`{"result": "https://x/4.mp4"}` with none of the probed keys yields
`None` — `result` is not in the probe tuple of main.py line 74. -/
theorem C3_counterexample :
    extract_output_url (JValue.jobj [("output", JValue.jarr
      [JValue.jobj [("result", JValue.jstr "https://x/4.mp4")]])]) = none := rfl

/-- Claim C3 amended: when the `output` field is a non-empty array whose
first element is an object, the normalizer returns the value under the
first matching key of the ordered list `[url, uri, output, video]`; the
key `result` is not probed. -/
theorem C3_key_probe (j : JValue) (fs : List (String × JValue)) (rest : List JValue)
    (h : j.get "output" = JValue.jarr (JValue.jobj fs :: rest)) :
    extract_output_url j = firstKeyHit fs OUTPUT_KEYS ∧
      OUTPUT_KEYS = ["url", "uri", "output", "video"] ∧ "result" ∉ OUTPUT_KEYS := by
  refine ⟨?_, rfl, by decide⟩
  simp [extract_output_url, h, JValue.truthy]

/-- Witness for C3 amended: an object first element keyed `video`. -/
theorem C3_witness :
    extract_output_url (JValue.jobj [("output", JValue.jarr
      [JValue.jobj [("video", JValue.jstr "https://x/5.mp4")]])]) =
      some (JValue.jstr "https://x/5.mp4") :=
  ((C3_key_probe (JValue.jobj [("output", JValue.jarr
    [JValue.jobj [("video", JValue.jstr "https://x/5.mp4")]])])
    [("video", JValue.jstr "https://x/5.mp4")] [] rfl).1).trans rfl

/-! ## Handler lemmas -/

lemma deliver_cases (ch : Channel) :
    (∃ p, deliver ch = (.ok p, 1)) ∨ (∃ e, deliver ch = (.error e, 0)) := by
  rcases ch with ⟨su, fb, sb⟩
  cases su <;> cases fb <;> cases sb <;> simp [deliver]

lemma afterStatus_cases (stOnError : UserData) (ch : Channel) (tj : JValue) :
    (∃ p, afterStatus stOnError ch tj = ⟨UserData.empty, .delivered p, 1⟩) ∨
    (∃ stg, afterStatus stOnError ch tj = ⟨stOnError, .errorReported stg, 0⟩) := by
  unfold afterStatus
  cases hst : handlerStatus tj with
  | none => exact Or.inr ⟨.statusNotString, rfl⟩
  | some status =>
    by_cases hsu : status ∈ SUCCESS_STATUSES
    · by_cases hout : optTruthy (extract_output_url tj) = true
      · rcases deliver_cases ch with ⟨p, hd⟩ | ⟨e, hd⟩
        · exact Or.inl ⟨p, by simp [hsu, hout, hd]⟩
        · exact Or.inr ⟨.deliveryFailed, by simp [hsu, hout, hd]⟩
      · have hout' : optTruthy (extract_output_url tj) = false := by simpa using hout
        exact Or.inr ⟨.noOutputUrl, by simp [hsu, hout']⟩
    · exact Or.inr ⟨.statusNotSucceeded, by simp [hsu]⟩

lemma afterPoll_cases (stOnError : UserData) (ch : Channel) (pr : PollResult) :
    (∃ p, afterPoll stOnError ch pr = ⟨UserData.empty, .delivered p, 1⟩) ∨
    (∃ stg, afterPoll stOnError ch pr = ⟨stOnError, .errorReported stg, 0⟩) := by
  cases pr with
  | httpError c => exact Or.inr ⟨.pollHttpFailed, rfl⟩
  | timeout => exact Or.inr ⟨.pollTimedOut, rfl⟩
  | finished tj => exact afterStatus_cases stOnError ch tj

/-- Every run of the shared pipeline either delivers once and clears the
state, or reports an error and leaves the entry state untouched with no
delivery (early guidance exits never reach `runJob`). -/
lemma runJob_cases (stOnError : UserData) (env : JobEnv) :
    (∃ p, runJob stOnError env = ⟨UserData.empty, .delivered p, 1⟩) ∨
    (∃ stg, runJob stOnError env = ⟨stOnError, .errorReported stg, 0⟩) := by
  cases hsr : env.start_resp with
  | error e =>
    refine Or.inr ⟨.submitFailed, ?_⟩
    simp [runJob, hsr]
  | ok r =>
    by_cases htid : optTruthy (extract_task_id r) = true
    · have h1 : runJob stOnError env =
        afterPoll stOnError env.chan (poll_task env.pollResponses 300 3 (by decide)).1 := by
        simp [runJob, hsr, htid]
      rw [h1]
      exact afterPoll_cases stOnError env.chan _
    · have htid' : optTruthy (extract_task_id r) = false := by simpa using htid
      exact Or.inr ⟨.noTaskId, by simp [runJob, hsr, htid']⟩

lemma handle_text_params_ok (st : UserData) (text : Option String) (env : JobEnv)
    (h : (optStrTruthy st.mode && optNatTruthy st.duration && optStrTruthy st.aspect) = true) :
    handle_text st text env =
      runJob { st with prompt := some (pyStrip (pyStrOr text "")) } env := by
  simp [handle_text, h]

lemma handle_photo_run (st : UserData) (caption : Option String) (env : JobEnv)
    (h1 : st.mode = some "image")
    (h2 : pyStrOr st.prompt (pyStrip (pyStrOr caption "")) ≠ "") :
    handle_photo st caption env = runJob st env := by
  simp [handle_photo, h1, h2]

lemma runJob_eval (stOnError : UserData) (env : JobEnv) (r : JValue) (pres : PollResult)
    (hsr : env.start_resp = .ok r) (htid : optTruthy (extract_task_id r) = true)
    (hpoll : (poll_task env.pollResponses 300 3 (by decide)).1 = pres) :
    runJob stOnError env = afterPoll stOnError env.chan pres := by
  simp [runJob, hsr, htid, hpoll]

/-- A `runJob` outcome of `delivered` comes with a cleared state, and an
outcome of `errorReported` comes with the untouched entry state. -/
lemma runJob_outcome_state (st1 : UserData) (env : JobEnv) (hne : st1 ≠ UserData.empty) :
    (∀ p, (runJob st1 env).outcome = .delivered p →
      (runJob st1 env).state = UserData.empty) ∧
    (∀ stg, (runJob st1 env).outcome = .errorReported stg →
      (runJob st1 env).state ≠ UserData.empty) := by
  rcases runJob_cases st1 env with ⟨p0, hr⟩ | ⟨stg0, hr⟩ <;> rw [hr]
  · exact ⟨fun p _ => rfl, fun stg h => by simp at h⟩
  · exact ⟨fun p h => by simp at h, fun stg _ => hne⟩

lemma okPoll_eval (h : 0 < 3) :
    poll_task okPoll 300 3 h = (PollResult.finished okJson, 1) := by
  unfold poll_task
  exact poll_go_success okPoll 300 3 h 0 0 okJson (by decide) rfl (by decide)

lemma failPoll_eval (h : 0 < 3) :
    poll_task failPoll 300 3 h = (PollResult.finished failJson, 1) := by
  unfold poll_task
  exact poll_go_failure failPoll 300 3 h 0 0 failJson (by decide) rfl (by decide) (by decide)

lemma okEnv_handle_text :
    handle_text demoParams (some "a cat") okEnv =
      ⟨UserData.empty, .delivered .byUrl, 1⟩ := by
  rw [handle_text_params_ok demoParams (some "a cat") okEnv (by decide),
    runJob_eval _ okEnv (.jobj [("id", .jstr "task-1")]) (PollResult.finished okJson) rfl rfl
      (by rw [show okEnv.pollResponses = okPoll from rfl, okPoll_eval])]
  decide

/-! ## Claim C1: session state after terminal outcomes -/

/-- Claim C1 is false on the code: a provider-reported failure is a
terminal outcome, yet after `handle_text` returns from it the session
state still holds mode, duration, ratio and the freshly stored prompt —
only the success path reaches `context.user_data.clear()`. -/
theorem C1_counterexample :
    (handle_text demoParams (some "a cat") failEnv).outcome =
      Outcome.errorReported Stage.statusNotSucceeded ∧
    (handle_text demoParams (some "a cat") failEnv).state ≠ UserData.empty := by
  have h0 : handle_text demoParams (some "a cat") failEnv =
      afterPoll ⟨some "text", some 5, some "1280:720", some "a cat"⟩ failEnv.chan
        (PollResult.finished failJson) := by
    rw [handle_text_params_ok demoParams (some "a cat") failEnv (by decide)]
    exact runJob_eval _ failEnv (.jobj [("id", .jstr "task-1")]) (PollResult.finished failJson)
      rfl rfl (by rw [show failEnv.pollResponses = failPoll from rfl, failPoll_eval])
  rw [h0]
  exact ⟨by decide, by decide⟩

/-- Claim C1 amended: the session state is cleared exactly on the
successful-delivery outcome; after an error outcome (provider failure,
timeout, polling error, missing output, or delivery failure) both handlers
leave the session state non-empty. -/
theorem C1_state_cleared_only_on_success (st : UserData) (text caption : Option String)
    (env : JobEnv) :
    ((∀ p, (handle_text st text env).outcome = .delivered p →
        (handle_text st text env).state = UserData.empty) ∧
      (∀ stg, (handle_text st text env).outcome = .errorReported stg →
        (handle_text st text env).state ≠ UserData.empty)) ∧
    ((∀ p, (handle_photo st caption env).outcome = .delivered p →
        (handle_photo st caption env).state = UserData.empty) ∧
      (∀ stg, (handle_photo st caption env).outcome = .errorReported stg →
        (handle_photo st caption env).state ≠ UserData.empty)) := by
  constructor
  · by_cases hb : (optStrTruthy st.mode && optNatTruthy st.duration &&
      optStrTruthy st.aspect) = true
    · rw [handle_text_params_ok st text env hb]
      apply runJob_outcome_state
      intro he
      have hmode : st.mode = none := congrArg UserData.mode he
      simp only [Bool.and_eq_true] at hb
      rw [hmode] at hb
      simp [optStrTruthy] at hb
    · have hb' : (optStrTruthy st.mode && optNatTruthy st.duration &&
        optStrTruthy st.aspect) = false := by simpa using hb
      have hht : handle_text st text env =
          ⟨st, .guidance "Сначала выбери параметры через /start", 0⟩ := by
        simp [handle_text, hb']
      rw [hht]
      exact ⟨fun p h => by simp at h, fun stg h => by simp at h⟩
  · by_cases hm : st.mode = some "image"
    · by_cases hp : pyStrOr st.prompt (pyStrip (pyStrOr caption "")) = ""
      · have hhp : handle_photo st caption env =
            ⟨st, .guidance "Сначала отправь текстовый промпт.", 0⟩ := by
          simp [handle_photo, hm, hp]
        rw [hhp]
        exact ⟨fun p h => by simp at h, fun stg h => by simp at h⟩
      · rw [handle_photo_run st caption env hm hp]
        apply runJob_outcome_state
        intro he
        have hmode : st.mode = none := congrArg UserData.mode he
        rw [hm] at hmode
        exact Option.noConfusion hmode
    · have hhp : handle_photo st caption env =
          ⟨st, .guidance "Фото не нужно для этого режима. Используй /start.", 0⟩ := by
        simp [handle_photo, hm]
      rw [hhp]
      exact ⟨fun p h => by simp at h, fun stg h => by simp at h⟩

/-- Witness for C1 amended: a fully successful flow delivers and the
state comes out empty. -/
theorem C1_witness :
    (handle_text demoParams (some "a cat") okEnv).outcome =
      Outcome.delivered DeliveryPath.byUrl ∧
    (handle_text demoParams (some "a cat") okEnv).state = UserData.empty :=
  ⟨by rw [okEnv_handle_text],
    ((C1_state_cleared_only_on_success demoParams (some "a cat") none okEnv).1).1
      DeliveryPath.byUrl (by rw [okEnv_handle_text])⟩

/-! ## Claim C8: delivery fallback -/

/-- Claim C8: when sending by URL fails and the byte fetch (and the
attached-bytes resend) succeed, the delivery block ends in success via the
fallback path with exactly one delivery; and no run of the delivery block,
nor of either handler, ever delivers more than once. -/
theorem C8_delivery_fallback_once :
    (∀ (ch : Channel) (e : String) (b : List Nat),
      ch.sendVideoUrl = .error e → ch.fetchBytes = .ok b → ch.sendVideoBytes = .ok () →
      deliver ch = (.ok DeliveryPath.byBytes, 1)) ∧
    (∀ ch : Channel, (deliver ch).2 ≤ 1) ∧
    (∀ (st : UserData) (text : Option String) (env : JobEnv),
      (handle_text st text env).deliveries ≤ 1) ∧
    (∀ (st : UserData) (caption : Option String) (env : JobEnv),
      (handle_photo st caption env).deliveries ≤ 1) := by
  refine ⟨?_, ?_, ?_, ?_⟩
  · intro ch e b h1 h2 h3
    simp [deliver, h1, h2, h3]
  · intro ch
    rcases deliver_cases ch with ⟨p, hd⟩ | ⟨e, hd⟩ <;> simp [hd]
  · intro st text env
    by_cases hb : (optStrTruthy st.mode && optNatTruthy st.duration &&
      optStrTruthy st.aspect) = true
    · rw [handle_text_params_ok st text env hb]
      rcases runJob_cases { st with prompt := some (pyStrip (pyStrOr text "")) } env with
        ⟨p, hr⟩ | ⟨stg, hr⟩ <;> simp [hr]
    · have hb' : (optStrTruthy st.mode && optNatTruthy st.duration &&
        optStrTruthy st.aspect) = false := by simpa using hb
      simp [handle_text, hb']
  · intro st caption env
    by_cases hm : st.mode = some "image"
    · by_cases hp : pyStrOr st.prompt (pyStrip (pyStrOr caption "")) = ""
      · simp [handle_photo, hm, hp]
      · rw [handle_photo_run st caption env hm hp]
        rcases runJob_cases st env with ⟨p, hr⟩ | ⟨stg, hr⟩ <;> simp [hr]
    · simp [handle_photo, hm]

/-- Witness for C8: a channel that rejects the URL but accepts the fetched
bytes delivers exactly once, via the attached-bytes path. -/
theorem C8_witness :
    deliver ⟨Except.error "rejected", Except.ok [1, 2], Except.ok ()⟩ =
      (Except.ok DeliveryPath.byBytes, 1) :=
  C8_delivery_fallback_once.1 ⟨Except.error "rejected", Except.ok [1, 2], Except.ok ()⟩
    "rejected" [1, 2] rfl rfl rfl

/-! ## Claim C9: inconsistent user actions -/

/-- Claim C9: a prompt arriving before mode, duration and ratio are all
set, a photo arriving while the selected mode is not image-to-video, and a
photo arriving before any prompt is available, are each answered with a
guidance message and leave the session state unchanged. -/
theorem C9_inconsistent_action_rejected (st : UserData) (text caption : Option String)
    (env : JobEnv) :
    ((optStrTruthy st.mode && optNatTruthy st.duration && optStrTruthy st.aspect) = false →
      handle_text st text env =
        ⟨st, .guidance "Сначала выбери параметры через /start", 0⟩) ∧
    (st.mode ≠ some "image" →
      handle_photo st caption env =
        ⟨st, .guidance "Фото не нужно для этого режима. Используй /start.", 0⟩) ∧
    (st.mode = some "image" → pyStrOr st.prompt (pyStrip (pyStrOr caption "")) = "" →
      handle_photo st caption env =
        ⟨st, .guidance "Сначала отправь текстовый промпт.", 0⟩) := by
  refine ⟨?_, ?_, ?_⟩
  · intro h
    simp [handle_text, h]
  · intro h
    simp [handle_photo, h]
  · intro h1 h2
    simp [handle_photo, h1, h2]

/-- Witness for C9: a prompt with nothing collected yet, and a photo while
the mode is `"text"`, are both rejected and mutate nothing. -/
theorem C9_witness :
    handle_text UserData.empty (some "hi") okEnv =
      ⟨UserData.empty, .guidance "Сначала выбери параметры через /start", 0⟩ ∧
    handle_photo demoParams (some "hi") okEnv =
      ⟨demoParams, .guidance "Фото не нужно для этого режима. Используй /start.", 0⟩ :=
  ⟨(C9_inconsistent_action_rejected UserData.empty (some "hi") (some "hi") okEnv).1
      (by decide),
    (C9_inconsistent_action_rejected demoParams (some "hi") (some "hi") okEnv).2.1
      (by decide)⟩

/-! ## Claim C10: `state`-only terminal statuses -/

/-- Claim C10: a polled body whose terminal status sits only under the
`state` key is accepted as terminal by `poll_task` (which reads
`status or state`), but the handler re-reads only `status`, classifies the
job as not succeeded, reports an error, and never delivers the output. -/
theorem C10_state_key_success_misclassified (st : UserData) (text : Option String)
    (env : JobEnv) (tj r : JValue) (s : String) (h3 : 0 < 3)
    (hparams : (optStrTruthy st.mode && optNatTruthy st.duration &&
      optStrTruthy st.aspect) = true)
    (hstart : env.start_resp = .ok r)
    (htid : optTruthy (extract_task_id r) = true)
    (hnost : tj.get "status" = JValue.jnull)
    (hstate : tj.get "state" = JValue.jstr s)
    (hsucc : pyUpper s ∈ SUCCESS_STATUSES)
    (hresp : env.pollResponses 0 = .ok tj) :
    poll_task env.pollResponses 300 3 h3 = (PollResult.finished tj, 1) ∧
    (handle_text st text env).outcome = Outcome.errorReported Stage.statusNotSucceeded ∧
    (handle_text st text env).deliveries = 0 := by
  have heff : effStatus tj = .jstr s := by
    simp [effStatus, pyOr, hnost, hstate, JValue.truthy]
  have hsucc' : isSuccessStatus (effStatus tj) = true := by
    rw [heff]
    simpa [isSuccessStatus] using hsucc
  have hpoll : poll_task env.pollResponses 300 3 h3 = (PollResult.finished tj, 1) := by
    unfold poll_task
    exact poll_go_success env.pollResponses 300 3 h3 0 0 tj (by decide) hresp hsucc'
  have hht : handle_text st text env =
      afterPoll { st with prompt := some (pyStrip (pyStrOr text "")) } env.chan
        (PollResult.finished tj) := by
    rw [handle_text_params_ok st text env hparams]
    exact runJob_eval _ env r (PollResult.finished tj) hstart htid (by rw [hpoll])
  have hhs : handlerStatus tj = some "" := by
    simp [handlerStatus, hnost, pyOr, JValue.truthy, show pyUpper "" = "" from rfl]
  refine ⟨hpoll, ?_, ?_⟩ <;> rw [hht] <;>
    simp [afterPoll, afterStatus, hhs, show ¬ ("" ∈ SUCCESS_STATUSES) from by decide]

/-- Witness for C10: a succeeded body under `state` only, with a usable
output URL; the poller stops on it at once and the handler still reports
an error and delivers nothing. -/
theorem C10_witness :
    poll_task stateOnlyEnv.pollResponses 300 3 (by decide) =
      (PollResult.finished stateOnlyJson, 1) ∧
    (handle_text demoParams (some "a cat") stateOnlyEnv).outcome =
      Outcome.errorReported Stage.statusNotSucceeded ∧
    (handle_text demoParams (some "a cat") stateOnlyEnv).deliveries = 0 :=
  C10_state_key_success_misclassified demoParams (some "a cat") stateOnlyEnv stateOnlyJson
    (.jobj [("id", .jstr "task-1")]) "SUCCEEDED" (by decide) (by decide) rfl rfl rfl rfl
    (by decide) rfl

end RunwayBot
